import Mathlib

/-!
Verification of the swap-panel logic of the `swap` repository
(`src/interface/src/components/swap/quote-info.tsx`,
`src/interface/src/hooks/useJupiter.ts`, and the wallet-state reducer).
The TypeScript pricing and hook logic is shallowly embedded below:
pure functions become Lean functions over exact rationals, the React
state hooks become explicit state passing, and the asynchronous service
and wallet-adapter collaborators become oracle parameters plus an
explicit trace of the calls issued.
-/

/-- Modelled from the spec: the repository's numeric utility `Amount`
(`~/utils/amount`) is not under `src/`; the spec's §4.1 describes the
pricing computation as exact arithmetic on rates, so `Amount` values and
their `minus`/`div`/`times`/`gte` operations are modelled as `ℚ` with
field arithmetic and the usual order. -/
abbrev Amount := ℚ

/-- A blockchain token (`BlockchainToken`): only the fields the embedded
code reads. -/
structure BlockchainToken where
  contractAddress : String
  symbol : String
  deriving DecidableEq, Repr

/-- Routing style of a quote option (`single | split`). -/
inductive Routing where
  | single
  | split
  deriving DecidableEq, Repr

/-- A liquidity source contributing to a quote option. -/
structure LiquiditySource where
  name : String
  deriving DecidableEq, Repr

/-- A quote option (`QuoteOption`) as consumed by `QuoteInfo`. -/
structure QuoteOption where
  fromToken : BlockchainToken
  toToken : BlockchainToken
  rate : Amount
  impact : Amount
  minimumToAmount : Amount
  sources : List LiquiditySource
  routing : Routing
  deriving DecidableEq, Repr

/-- The two spot prices `QuoteInfo` reads from wallet state
(`spotPrices.makerAsset`, `spotPrices.takerAsset`); `none` models a
missing/falsy entry, mirroring the truthiness guard in the source. -/
structure SpotPrices where
  makerAsset : Option ℚ
  takerAsset : Option ℚ
  deriving DecidableEq, Repr

/-- `coinGeckoDelta` memo of `quote-info.tsx` (lines 77–105): when the
tokens, both spot prices and a selected quote option are present, returns
`(quoteRate − coinGeckoRate) / quoteRate × 100` where
`coinGeckoRate = makerAsset / takerAsset`; otherwise `Amount.zero()`. -/
def coinGeckoDelta (fromToken toToken : Option BlockchainToken)
    (spotPrices : SpotPrices) (selectedQuoteOption : Option QuoteOption) : ℚ :=
  match fromToken, toToken, spotPrices.makerAsset, spotPrices.takerAsset,
      selectedQuoteOption with
  | some _, some _, some makerAsset, some takerAsset, some q =>
      let coinGeckoRate := makerAsset / takerAsset
      let quoteRate := q.rate
      (quoteRate - coinGeckoRate) / quoteRate * 100
  | _, _, _, _, _ => 0

/-- The spec's formula (§4.1): `delta = (R_quote − R_ref) / R_quote × 100`,
stated independently of the source for the refinement claim. -/
def coinGeckoDeltaSpec (Rquote Rref : ℚ) : ℚ :=
  (Rquote - Rref) / Rquote * 100

/-- Classification carried by the `coinGeckoDeltaText` memo (which locale
string it renders). -/
inductive DeltaTextClass where
  | cheaper
  | within
  | expensive
  deriving DecidableEq, Repr

/-- `coinGeckoDeltaText` memo (lines 107–120), reduced to which locale
string is chosen: `cheaper` if `delta.gte(0)`, else `within` if
`delta.gte(-1)`, else `expensive`. -/
def coinGeckoDeltaText (delta : ℚ) : DeltaTextClass :=
  if delta ≥ 0 then .cheaper
  else if delta ≥ -1 then .within
  else .expensive

/-- Color classification returned by the `coinGeckoDeltaColor` memo. -/
inductive DeltaColor where
  | success
  | warning
  | error
  deriving DecidableEq, Repr

/-- `coinGeckoDeltaColor` memo (lines 122–132): `success` if
`delta.gte(-1)`, else `warning` if `delta.gte(-5)`, else `error`. -/
def coinGeckoDeltaColor (delta : ℚ) : DeltaColor :=
  if delta ≥ -1 then .success
  else if delta ≥ -5 then .warning
  else .error

/-- C1: under the presence guard and non-zero spot prices, the displayed
CoinGecko delta equals the spec formula with `R_ref = maker / taker`, and
at `spotPrice(FROM)=100`, `spotPrice(TO)=50`, `R_quote=2.2` it equals
`100/11 ≈ 9.09`. -/
theorem coinGeckoDelta_eq_spec (ft tt : BlockchainToken) (m t : ℚ)
    (q : QuoteOption) (hm : m ≠ 0) (ht : t ≠ 0) :
    coinGeckoDelta (some ft) (some tt) ⟨some m, some t⟩ (some q) =
      coinGeckoDeltaSpec q.rate (m / t) ∧
    (q.rate = 11/5 → m = 100 → t = 50 →
      coinGeckoDelta (some ft) (some tt) ⟨some m, some t⟩ (some q) = 100/11 ∧
      |coinGeckoDelta (some ft) (some tt) ⟨some m, some t⟩ (some q)
        - 909/100| < 1/100) := by
  constructor
  · rfl
  · rintro hr rfl rfl
    simp only [coinGeckoDelta, hr]
    norm_num
    rw [abs_of_nonneg (by norm_num)]
    norm_num

/-- Witness for C1 at `maker=100`, `taker=50`, `rate=11/5`. -/
theorem coinGeckoDelta_eq_spec_witness :
    (100 : ℚ) ≠ 0 ∧ (50 : ℚ) ≠ 0 ∧
    (coinGeckoDelta (some ⟨"f", "F"⟩) (some ⟨"t", "T"⟩) ⟨some 100, some 50⟩
        (some ⟨⟨"f", "F"⟩, ⟨"t", "T"⟩, 11/5, 0, 0, [], .single⟩) =
      coinGeckoDeltaSpec (11/5) (100 / 50) ∧
    ((11 : ℚ)/5 = 11/5 → (100 : ℚ) = 100 → (50 : ℚ) = 50 →
      coinGeckoDelta (some ⟨"f", "F"⟩) (some ⟨"t", "T"⟩) ⟨some 100, some 50⟩
          (some ⟨⟨"f", "F"⟩, ⟨"t", "T"⟩, 11/5, 0, 0, [], .single⟩) = 100/11 ∧
      |coinGeckoDelta (some ⟨"f", "F"⟩) (some ⟨"t", "T"⟩) ⟨some 100, some 50⟩
          (some ⟨⟨"f", "F"⟩, ⟨"t", "T"⟩, 11/5, 0, 0, [], .single⟩)
        - 909/100| < 1/100)) :=
  ⟨by norm_num, by norm_num,
    coinGeckoDelta_eq_spec ⟨"f", "F"⟩ ⟨"t", "T"⟩ 100 50
      ⟨⟨"f", "F"⟩, ⟨"t", "T"⟩, 11/5, 0, 0, [], .single⟩
      (by norm_num) (by norm_num)⟩

/-- C2: the delta text is `cheaper` iff `delta ≥ 0`, `within` iff
`−1 ≤ delta < 0`, `expensive` iff `delta < −1`; in particular `0` is
`cheaper` and `−1` is `within`. -/
theorem coinGeckoDeltaText_classification (d : ℚ) :
    (coinGeckoDeltaText d = .cheaper ↔ 0 ≤ d) ∧
    (coinGeckoDeltaText d = .within ↔ -1 ≤ d ∧ d < 0) ∧
    (coinGeckoDeltaText d = .expensive ↔ d < -1) ∧
    coinGeckoDeltaText 0 = .cheaper ∧
    coinGeckoDeltaText (-1) = .within := by
  unfold coinGeckoDeltaText
  refine ⟨?_, ?_, ?_, by norm_num, by norm_num⟩ <;>
    split_ifs with h1 h2 <;>
    simp_all <;> linarith

/-- C3: the delta color is `success` iff `delta ≥ −1`, `warning` iff
`−5 ≤ delta < −1`, `error` iff `delta < −5`. -/
theorem coinGeckoDeltaColor_classification (d : ℚ) :
    (coinGeckoDeltaColor d = .success ↔ -1 ≤ d) ∧
    (coinGeckoDeltaColor d = .warning ↔ -5 ≤ d ∧ d < -1) ∧
    (coinGeckoDeltaColor d = .error ↔ d < -5) := by
  unfold coinGeckoDeltaColor
  refine ⟨?_, ?_, ?_⟩ <;>
    split_ifs with h1 h2 <;>
    simp_all <;> linarith

/-- C7: the delta computation is deterministic — equal inputs give equal
outputs — and scale-invariant: multiplying the quoted rate and the
reference rate (scaling the maker price) by the same positive constant
leaves the delta unchanged. -/
theorem coinGeckoDelta_det_scale_invariant (ft tt : BlockchainToken)
    (m t : ℚ) (q : QuoteOption) (c : ℚ) (hc : 0 < c) :
    (∀ q' : QuoteOption, q'.rate = q.rate →
      coinGeckoDelta (some ft) (some tt) ⟨some m, some t⟩ (some q') =
        coinGeckoDelta (some ft) (some tt) ⟨some m, some t⟩ (some q)) ∧
    coinGeckoDelta (some ft) (some tt) ⟨some (c * m), some t⟩
        (some { q with rate := c * q.rate }) =
      coinGeckoDelta (some ft) (some tt) ⟨some m, some t⟩ (some q) := by
  constructor
  · intro q' hq
    simp only [coinGeckoDelta, hq]
  · simp only [coinGeckoDelta]
    rw [mul_div_assoc, ← mul_sub, mul_div_mul_left _ _ (ne_of_gt hc)]

/-- Witness for C7 at `maker=3`, `taker=2`, `rate=5`, `c=7`. -/
theorem coinGeckoDelta_det_scale_invariant_witness :
    (0 : ℚ) < 7 ∧
    ((∀ q' : QuoteOption, q'.rate = (5 : ℚ) →
      coinGeckoDelta (some ⟨"f", "F"⟩) (some ⟨"t", "T"⟩) ⟨some 3, some 2⟩
          (some q') =
        coinGeckoDelta (some ⟨"f", "F"⟩) (some ⟨"t", "T"⟩) ⟨some 3, some 2⟩
          (some ⟨⟨"f", "F"⟩, ⟨"t", "T"⟩, 5, 0, 0, [], .single⟩)) ∧
    coinGeckoDelta (some ⟨"f", "F"⟩) (some ⟨"t", "T"⟩) ⟨some (7 * 3), some 2⟩
        (some ⟨⟨"f", "F"⟩, ⟨"t", "T"⟩, 7 * 5, 0, 0, [], .single⟩) =
      coinGeckoDelta (some ⟨"f", "F"⟩) (some ⟨"t", "T"⟩) ⟨some 3, some 2⟩
        (some ⟨⟨"f", "F"⟩, ⟨"t", "T"⟩, 5, 0, 0, [], .single⟩)) :=
  ⟨by norm_num,
    coinGeckoDelta_det_scale_invariant ⟨"f", "F"⟩ ⟨"t", "T"⟩ 3 2
      ⟨⟨"f", "F"⟩, ⟨"t", "T"⟩, 5, 0, 0, [], .single⟩ 7 (by norm_num)⟩

/-- Keyed string map (`Registry`), modelled as an association list; lookup
takes the first binding. -/
abbrev Registry := List (String × String)

/-- JS object-spread merge `\x7b...a, ...b\x7d`: keys of `b` override keys of
`a`, other keys of `a` are kept. -/
def Registry.spread (a b : Registry) : Registry :=
  b ++ a.filter (fun p => (b.lookup p.1).isNone)

/-- Chain coin types (`CoinType`); the hook only compares against
`CoinType.Solana`. -/
inductive CoinType where
  | Ethereum
  | Solana
  | Filecoin
  deriving DecidableEq, Repr

/-- A network (`NetworkInfo`): only the fields the embedded code reads. -/
structure NetworkInfo where
  chainId : String
  coin : CoinType
  symbol : String
  deriving DecidableEq, Repr

/-- A wallet account: only the fields the embedded code reads. -/
structure Account where
  address : String
  coin : CoinType
  deriving DecidableEq, Repr

/-- A network fee estimate (`GasEstimate`). -/
structure GasEstimate where
  gasFee : String
  deriving DecidableEq, Repr

/-- The wallet state aggregate (`WalletState`), with the fields of
`initialState` in `state/wallet`. -/
structure WalletState where
  tokenBalances : Registry
  tokenSpotPrices : Registry
  tokenList : List BlockchainToken
  selectedAccount : Option Account
  selectedNetwork : Option NetworkInfo
  isConnected : Bool
  supportedNetworks : List NetworkInfo
  braveWalletAccounts : List Account
  supportedExchanges : List String
  userSelectedExchanges : List String
  networkFeeEstimates : List (String × GasEstimate)
  defaultBaseCurrency : String
  isNetworkSupported : Bool
  deriving DecidableEq, Repr

/-- The wallet initial state (`initialState`). -/
def initialState : WalletState :=
  { tokenBalances := []
    tokenSpotPrices := []
    tokenList := []
    selectedAccount := none
    selectedNetwork := none
    isConnected := false
    supportedNetworks := []
    braveWalletAccounts := []
    supportedExchanges := []
    userSelectedExchanges := []
    networkFeeEstimates := []
    defaultBaseCurrency := ""
    isNetworkSupported := true }

/-- Dispatched wallet actions (`WalletActions`). -/
inductive WalletActions where
  | updateTokenBalances (payload : Registry)
  | updateTokenSpotPrices (payload : Registry)
  | updateTokenList (payload : List BlockchainToken)
  | updateSelectedNetwork (payload : Option NetworkInfo)
  | updateSupportedNetworks (payload : List NetworkInfo)
  | updateIsNetworkSupported (payload : Bool)
  | updateSelectedAccount (payload : Option Account)
  | updateBraveWalletAccounts (payload : List Account)
  | updateSupportedExchanges (payload : List String)
  | updateUserSelectedExchanges (payload : List String)
  | updateNetworkFeeEstimates (payload : List (String × GasEstimate))
  | updateDefaultBaseCurrency (payload : String)
  | setIsConnected (payload : Bool)
  deriving DecidableEq, Repr

/-- The wallet state reducer (`WalletReducer`, `state/wallet` lines
337–368), transcribed case by case; note that the source's
`updateTokenSpotPrices` case assigns `action.payload` to `tokenBalances`. -/
def WalletReducer (state : WalletState) (action : WalletActions) : WalletState :=
  match action with
  | .updateTokenBalances payload =>
      { state with tokenBalances := Registry.spread state.tokenBalances payload }
  | .updateTokenSpotPrices payload => { state with tokenBalances := payload }
  | .updateTokenList payload => { state with tokenList := payload }
  | .updateSelectedNetwork payload => { state with selectedNetwork := payload }
  | .updateSupportedNetworks payload => { state with supportedNetworks := payload }
  | .updateIsNetworkSupported payload => { state with isNetworkSupported := payload }
  | .updateSelectedAccount payload => { state with selectedAccount := payload }
  | .updateBraveWalletAccounts payload => { state with braveWalletAccounts := payload }
  | .updateSupportedExchanges payload => { state with supportedExchanges := payload }
  | .updateUserSelectedExchanges payload => { state with userSelectedExchanges := payload }
  | .updateNetworkFeeEstimates payload => { state with networkFeeEstimates := payload }
  | .updateDefaultBaseCurrency payload => { state with defaultBaseCurrency := payload }
  | .setIsConnected payload => { state with isConnected := payload }

/-- C4: evaluating the reducer at a concrete state and an
`updateTokenSpotPrices` action shows the bug: the spot-price map is left
unchanged while the token-balances map is overwritten with the payload. -/
theorem walletReducer_updateTokenSpotPrices_bug :
    (WalletReducer
        { initialState with
            tokenBalances := [("0xabc", "1")]
            tokenSpotPrices := [("sol", "20")] }
        (.updateTokenSpotPrices [("sol", "25")])).tokenSpotPrices =
      [("sol", "20")] ∧
    (WalletReducer
        { initialState with
            tokenBalances := [("0xabc", "1")]
            tokenSpotPrices := [("sol", "20")] }
        (.updateTokenSpotPrices [("sol", "25")])).tokenBalances =
      [("sol", "25")] :=
  ⟨rfl, rfl⟩

/-- `WRAPPED_SOL_CONTRACT_ADDRESS` from `~/constants/magics`. -/
def WRAPPED_SOL_CONTRACT_ADDRESS : String :=
  "So11111111111111111111111111111111111111112"

/-- `address || WRAPPED_SOL_CONTRACT_ADDRESS`: a falsy (empty) contract
address falls back to the wrapped-SOL mint. -/
def orWrappedSol (address : String) : String :=
  if address = "" then WRAPPED_SOL_CONTRACT_ADDRESS else address

/-- A Jupiter route (`JupiterRoute`): only identity matters to the
embedded code, which compares and forwards routes wholesale. -/
structure JupiterRoute where
  inAmount : Nat
  outAmount : Nat
  deriving DecidableEq, Repr

/-- A Jupiter quote response (`JupiterQuoteResponse`): the route list the
hook inspects. -/
structure JupiterQuoteResponse where
  routes : List JupiterRoute
  deriving DecidableEq, Repr

/-- A structured Jupiter error body (`JupiterErrorResponse`). -/
structure JupiterErrorResponse where
  statusCode : String
  error : String
  message : String
  deriving DecidableEq, Repr

/-- The transactions payload returned by
`getJupiterTransactionsPayload`. -/
structure JupiterTransactionsPayload where
  setupTransaction : Option String
  swapTransaction : String
  cleanupTransaction : Option String
  deriving DecidableEq, Repr

/-- Swap parameters (`SwapParams`) after the `\x7b...params, ...overrides\x7d`
merge performed at the top of `refresh`; empty strings model falsy
fields. -/
structure SwapParams where
  fromToken : Option BlockchainToken
  toToken : Option BlockchainToken
  fromAmount : String
  toAmount : String
  slippagePercentage : String
  deriving DecidableEq, Repr

/-- The `useJupiter` hook's React state: `quote`, `error`, `loading`,
`selectedRoute`. -/
structure JupiterState where
  quote : Option JupiterQuoteResponse
  error : Option JupiterErrorResponse
  loading : Bool
  selectedRoute : Option JupiterRoute
  deriving DecidableEq, Repr

/-- External calls the hook can issue, recorded as a trace: the two
swap-service methods and the wallet-adapter `sendTransaction`. -/
inductive ServiceCall where
  | getJupiterQuote (inputMint outputMint amount slippagePercentage : String)
  | getJupiterTransactionsPayload (userPublicKey : String)
      (route : JupiterRoute) (outputMint : String)
  | sendTransaction (encodedTransaction fromAddress : String)
      (skipPreflight : Bool)
  deriving DecidableEq, Repr

/-- Oracle for the awaited `getJupiterQuote` call: either a quote, or a
thrown error whose message may (`some`) or may not (`none`) JSON-parse to
a `JupiterErrorResponse`. -/
inductive QuoteFetchResult where
  | success (response : JupiterQuoteResponse)
  | failure (parsedError : Option JupiterErrorResponse)
  deriving DecidableEq, Repr

/-- Oracle for the awaited `getJupiterTransactionsPayload` call. -/
inductive TransactionsPayloadResult where
  | success (response : JupiterTransactionsPayload)
  | failure (parsedError : Option JupiterErrorResponse)
  deriving DecidableEq, Repr

/-- `refresh` of `useJupiter.ts` (lines 43–89) as a state transformer:
given the wallet's selected network, the hook state, the overridden swap
parameters and the fetch oracle, returns the final hook state and the
trace of service calls. Guards in source order: wrong chain → return;
missing token → return; falsy `fromAmount` → clear quote and error;
otherwise fetch, then set quote on success or set error when the thrown
message parses. -/
def refresh (selectedNetwork : Option NetworkInfo) (st : JupiterState)
    (overriddenParams : SwapParams) (fetchResult : QuoteFetchResult) :
    JupiterState × List ServiceCall :=
  if selectedNetwork.map NetworkInfo.coin ≠ some CoinType.Solana then (st, [])
  else
    match overriddenParams.fromToken, overriddenParams.toToken with
    | some fromToken, some toToken =>
        if overriddenParams.fromAmount = "" then
          ({ st with quote := none, error := none }, [])
        else
          let call := ServiceCall.getJupiterQuote
            (orWrappedSol fromToken.contractAddress)
            (orWrappedSol toToken.contractAddress)
            overriddenParams.fromAmount
            overriddenParams.slippagePercentage
          match fetchResult with
          | .success response =>
              ({ st with quote := some response, loading := false }, [call])
          | .failure (some err) =>
              ({ st with error := some err, loading := false }, [call])
          | .failure none => ({ st with loading := false }, [call])
    | _, _ => (st, [])

/-- `exchange` of `useJupiter.ts` (lines 91–149) as a state transformer.
Guards in source order: no quote or empty route list → return; wrong
chain → return; no `toToken` → return; no selected account → return.
Then the transactions payload is requested for
`selectedRoute || quote.routes[0]`; on failure the parsed error (if any)
is set and the run stops; on success `sendTransaction` is issued, and an
adapter failure is only logged — the returned state does not depend on
`sendTransactionFails`. -/
def exchange (selectedNetwork : Option NetworkInfo)
    (selectedAccount : Option Account) (params : SwapParams)
    (st : JupiterState) (payloadResult : TransactionsPayloadResult)
    (sendTransactionFails : Bool) : JupiterState × List ServiceCall :=
  match st.quote with
  | none => (st, [])
  | some quoteResponse =>
    match quoteResponse.routes with
    | [] => (st, [])
    | r0 :: _ =>
      if selectedNetwork.map NetworkInfo.coin ≠ some CoinType.Solana then
        (st, [])
      else
        match params.toToken with
        | none => (st, [])
        | some toToken =>
          match selectedAccount with
          | none => (st, [])
          | some account =>
            let route := match st.selectedRoute with
              | some r => r
              | none => r0
            let payloadCall := ServiceCall.getJupiterTransactionsPayload
              account.address route (orWrappedSol toToken.contractAddress)
            match payloadResult with
            | .failure (some err) =>
                ({ st with error := some err, loading := false },
                  [payloadCall])
            | .failure none => ({ st with loading := false }, [payloadCall])
            | .success response =>
                let sendCall := ServiceCall.sendTransaction
                  response.swapTransaction account.address true
                ({ st with loading := false }, [payloadCall, sendCall])

/-- C5 counterexample: on a non-Solana network, `refresh` returns at the
chain guard before the clearing branch, so an empty `fromAmount` leaves
the prior quote in place. -/
theorem refresh_emptyAmount_counterexample :
    (SwapParams.mk (some ⟨"f", "F"⟩) (some ⟨"t", "T"⟩) "" "" "0.5").fromAmount
        = "" ∧
    (refresh (some ⟨"0x1", .Ethereum, "ETH"⟩)
        ⟨some ⟨[⟨1, 2⟩]⟩, none, false, none⟩
        (SwapParams.mk (some ⟨"f", "F"⟩) (some ⟨"t", "T"⟩) "" "" "0.5")
        (.failure none)).1.quote = some ⟨[⟨1, 2⟩]⟩ :=
  ⟨rfl, rfl⟩

/-- C5 (amended): when the selected network's coin is Solana and both
tokens are present, `refresh` with an empty `fromAmount` clears the quote
and the error to `none` and issues no service call. -/
theorem refresh_emptyAmount_clears (net : NetworkInfo) (st : JupiterState)
    (p : SwapParams) (o : QuoteFetchResult)
    (hnet : net.coin = CoinType.Solana) (hft : p.fromToken ≠ none)
    (htt : p.toToken ≠ none) (ha : p.fromAmount = "") :
    refresh (some net) st p o =
      ({ st with quote := none, error := none }, []) := by
  obtain ⟨ft, hft⟩ := Option.ne_none_iff_exists'.mp hft
  obtain ⟨tt, htt⟩ := Option.ne_none_iff_exists'.mp htt
  simp [refresh, hnet, hft, htt, ha]

/-- Witness for C5 (amended) on a Solana network with both tokens. -/
theorem refresh_emptyAmount_clears_witness :
    (NetworkInfo.mk "0x65" .Solana "SOL").coin = CoinType.Solana ∧
    (SwapParams.mk (some ⟨"f", "F"⟩) (some ⟨"t", "T"⟩) "" "" "0.5").fromToken
        ≠ none ∧
    (SwapParams.mk (some ⟨"f", "F"⟩) (some ⟨"t", "T"⟩) "" "" "0.5").toToken
        ≠ none ∧
    (SwapParams.mk (some ⟨"f", "F"⟩) (some ⟨"t", "T"⟩) "" "" "0.5").fromAmount
        = "" ∧
    refresh (some ⟨"0x65", .Solana, "SOL"⟩)
        ⟨some ⟨[⟨1, 2⟩]⟩, some ⟨"400", "err", "msg"⟩, true, none⟩
        (SwapParams.mk (some ⟨"f", "F"⟩) (some ⟨"t", "T"⟩) "" "" "0.5")
        (.failure none) =
      (⟨none, none, true, none⟩, []) :=
  ⟨rfl, by decide, by decide, rfl,
    refresh_emptyAmount_clears ⟨"0x65", .Solana, "SOL"⟩
      ⟨some ⟨[⟨1, 2⟩]⟩, some ⟨"400", "err", "msg"⟩, true, none⟩
      (SwapParams.mk (some ⟨"f", "F"⟩) (some ⟨"t", "T"⟩) "" "" "0.5")
      (.failure none) rfl (by decide) (by decide) rfl⟩

/-- C6: when the quote is absent or its route list is empty, `exchange`
returns the state unchanged and issues no service or adapter call. -/
theorem exchange_noQuote_noop (net : Option NetworkInfo)
    (acc : Option Account) (p : SwapParams) (st : JupiterState)
    (pr : TransactionsPayloadResult) (sf : Bool)
    (h : st.quote = none ∨ ∃ q, st.quote = some q ∧ q.routes = []) :
    exchange net acc p st pr sf = (st, []) := by
  rcases h with h | ⟨q, hq, hrts⟩
  · simp [exchange, h]
  · simp [exchange, hq, hrts]

/-- Witness for C6 at a state with no quote. -/
theorem exchange_noQuote_noop_witness :
    ((⟨none, none, false, none⟩ : JupiterState).quote = none ∨
      ∃ q, (⟨none, none, false, none⟩ : JupiterState).quote = some q ∧
        q.routes = []) ∧
    exchange none none ⟨none, none, "", "", ""⟩ ⟨none, none, false, none⟩
        (.failure none) false =
      (⟨none, none, false, none⟩, []) :=
  ⟨Or.inl rfl,
    exchange_noQuote_noop none none ⟨none, none, "", "", ""⟩
      ⟨none, none, false, none⟩ (.failure none) false (Or.inl rfl)⟩

/-- C8: `refresh` issues no service call when the selected network's coin
is not Solana, or either token is missing, or `fromAmount` is empty. -/
theorem refresh_no_fetch_unless_guards (net : Option NetworkInfo)
    (st : JupiterState) (p : SwapParams) (o : QuoteFetchResult)
    (h : net.map NetworkInfo.coin ≠ some CoinType.Solana ∨
      p.fromToken = none ∨ p.toToken = none ∨ p.fromAmount = "") :
    (refresh net st p o).2 = [] := by
  rcases h with h | h | h | h
  · simp [refresh, h]
  · simp [refresh, h]
  · rcases hft : p.fromToken with _ | ft <;> simp [refresh, h, hft]
  · rcases hft : p.fromToken with _ | ft <;>
      rcases htt : p.toToken with _ | tt <;>
      simp [refresh, h, hft, htt] <;>
      split <;> rfl

/-- Witness for C8 with no selected network. -/
theorem refresh_no_fetch_unless_guards_witness :
    ((none : Option NetworkInfo).map NetworkInfo.coin ≠
        some CoinType.Solana ∨
      (SwapParams.mk none none "1" "" "0.5").fromToken = none ∨
      (SwapParams.mk none none "1" "" "0.5").toToken = none ∨
      (SwapParams.mk none none "1" "" "0.5").fromAmount = "") ∧
    (refresh none ⟨none, none, false, none⟩
        (SwapParams.mk none none "1" "" "0.5") (.failure none)).2 = [] :=
  ⟨Or.inl (by decide),
    refresh_no_fetch_unless_guards none ⟨none, none, false, none⟩
      (SwapParams.mk none none "1" "" "0.5") (.failure none)
      (Or.inl (by decide))⟩

/-- C9: in a run of `exchange` that reaches the adapter and whose
`sendTransaction` fails, the error state is unchanged (the adapter error
is only logged), the send was actually attempted, and the resulting state
does not depend on whether the send failed. -/
theorem exchange_sendFailure_keeps_error (net : NetworkInfo) (acc : Account)
    (p : SwapParams) (tt : BlockchainToken) (st : JupiterState)
    (q : JupiterQuoteResponse) (r0 : JupiterRoute) (rs : List JupiterRoute)
    (pl : JupiterTransactionsPayload)
    (hq : st.quote = some q) (hrts : q.routes = r0 :: rs)
    (hnet : net.coin = CoinType.Solana) (htt : p.toToken = some tt) :
    (exchange (some net) (some acc) p st (.success pl) true).1.error =
      st.error ∧
    ServiceCall.sendTransaction pl.swapTransaction acc.address true ∈
      (exchange (some net) (some acc) p st (.success pl) true).2 ∧
    exchange (some net) (some acc) p st (.success pl) true =
      exchange (some net) (some acc) p st (.success pl) false := by
  refine ⟨?_, ?_, rfl⟩ <;> simp [exchange, hq, hrts, hnet, htt]

/-- Witness for C9 at a concrete one-route quote. -/
theorem exchange_sendFailure_keeps_error_witness :
    (JupiterState.mk (some ⟨[⟨1, 2⟩]⟩) none false none).quote =
      some ⟨[⟨1, 2⟩]⟩ ∧
    (JupiterQuoteResponse.mk [⟨1, 2⟩]).routes = ⟨1, 2⟩ :: [] ∧
    (NetworkInfo.mk "0x65" .Solana "SOL").coin = CoinType.Solana ∧
    (SwapParams.mk (some ⟨"f", "F"⟩) (some ⟨"t", "T"⟩) "1" "" "0.5").toToken
        = some ⟨"t", "T"⟩ ∧
    ((exchange (some ⟨"0x65", .Solana, "SOL"⟩) (some ⟨"addr", .Solana⟩)
        (SwapParams.mk (some ⟨"f", "F"⟩) (some ⟨"t", "T"⟩) "1" "" "0.5")
        ⟨some ⟨[⟨1, 2⟩]⟩, none, false, none⟩
        (.success ⟨none, "swaptx", none⟩) true).1.error =
      (JupiterState.mk (some ⟨[⟨1, 2⟩]⟩) none false none).error ∧
    ServiceCall.sendTransaction "swaptx" "addr" true ∈
      (exchange (some ⟨"0x65", .Solana, "SOL"⟩) (some ⟨"addr", .Solana⟩)
        (SwapParams.mk (some ⟨"f", "F"⟩) (some ⟨"t", "T"⟩) "1" "" "0.5")
        ⟨some ⟨[⟨1, 2⟩]⟩, none, false, none⟩
        (.success ⟨none, "swaptx", none⟩) true).2 ∧
    exchange (some ⟨"0x65", .Solana, "SOL"⟩) (some ⟨"addr", .Solana⟩)
        (SwapParams.mk (some ⟨"f", "F"⟩) (some ⟨"t", "T"⟩) "1" "" "0.5")
        ⟨some ⟨[⟨1, 2⟩]⟩, none, false, none⟩
        (.success ⟨none, "swaptx", none⟩) true =
      exchange (some ⟨"0x65", .Solana, "SOL"⟩) (some ⟨"addr", .Solana⟩)
        (SwapParams.mk (some ⟨"f", "F"⟩) (some ⟨"t", "T"⟩) "1" "" "0.5")
        ⟨some ⟨[⟨1, 2⟩]⟩, none, false, none⟩
        (.success ⟨none, "swaptx", none⟩) false) :=
  ⟨rfl, rfl, rfl, rfl,
    exchange_sendFailure_keeps_error ⟨"0x65", .Solana, "SOL"⟩
      ⟨"addr", .Solana⟩
      (SwapParams.mk (some ⟨"f", "F"⟩) (some ⟨"t", "T"⟩) "1" "" "0.5")
      ⟨"t", "T"⟩ ⟨some ⟨[⟨1, 2⟩]⟩, none, false, none⟩ ⟨[⟨1, 2⟩]⟩ ⟨1, 2⟩ []
      ⟨none, "swaptx", none⟩ rfl rfl rfl rfl⟩

/-- C10: past its guards, `exchange` submits the user-selected route to
`getJupiterTransactionsPayload` when one is set, and otherwise the first
route of the current quote. -/
theorem exchange_route_selection (net : NetworkInfo) (acc : Account)
    (p : SwapParams) (tt : BlockchainToken) (st : JupiterState)
    (q : JupiterQuoteResponse) (r0 : JupiterRoute) (rs : List JupiterRoute)
    (pr : TransactionsPayloadResult) (sf : Bool)
    (hq : st.quote = some q) (hrts : q.routes = r0 :: rs)
    (hnet : net.coin = CoinType.Solana) (htt : p.toToken = some tt) :
    (∀ r, st.selectedRoute = some r →
      (exchange (some net) (some acc) p st pr sf).2.head? =
        some (ServiceCall.getJupiterTransactionsPayload acc.address r
          (orWrappedSol tt.contractAddress))) ∧
    (st.selectedRoute = none →
      (exchange (some net) (some acc) p st pr sf).2.head? =
        some (ServiceCall.getJupiterTransactionsPayload acc.address r0
          (orWrappedSol tt.contractAddress))) := by
  constructor
  · intro r hsel
    cases pr with
    | success pl => simp [exchange, hq, hrts, hnet, htt, hsel]
    | failure pe => cases pe <;> simp [exchange, hq, hrts, hnet, htt, hsel]
  · intro hsel
    cases pr with
    | success pl => simp [exchange, hq, hrts, hnet, htt, hsel]
    | failure pe => cases pe <;> simp [exchange, hq, hrts, hnet, htt, hsel]

/-- Witness for C10 with no user-selected route (the first route is
submitted). -/
theorem exchange_route_selection_witness :
    (JupiterState.mk (some ⟨[⟨1, 2⟩]⟩) none false none).quote =
      some ⟨[⟨1, 2⟩]⟩ ∧
    (JupiterQuoteResponse.mk [⟨1, 2⟩]).routes = ⟨1, 2⟩ :: [] ∧
    (NetworkInfo.mk "0x65" .Solana "SOL").coin = CoinType.Solana ∧
    (SwapParams.mk (some ⟨"f", "F"⟩) (some ⟨"t", "T"⟩) "1" "" "0.5").toToken
        = some ⟨"t", "T"⟩ ∧
    ((∀ r, (JupiterState.mk (some ⟨[⟨1, 2⟩]⟩) none false none).selectedRoute
          = some r →
      (exchange (some ⟨"0x65", .Solana, "SOL"⟩) (some ⟨"addr", .Solana⟩)
        (SwapParams.mk (some ⟨"f", "F"⟩) (some ⟨"t", "T"⟩) "1" "" "0.5")
        ⟨some ⟨[⟨1, 2⟩]⟩, none, false, none⟩
        (.failure none) false).2.head? =
        some (ServiceCall.getJupiterTransactionsPayload "addr" r
          (orWrappedSol "t"))) ∧
    ((JupiterState.mk (some ⟨[⟨1, 2⟩]⟩) none false none).selectedRoute = none →
      (exchange (some ⟨"0x65", .Solana, "SOL"⟩) (some ⟨"addr", .Solana⟩)
        (SwapParams.mk (some ⟨"f", "F"⟩) (some ⟨"t", "T"⟩) "1" "" "0.5")
        ⟨some ⟨[⟨1, 2⟩]⟩, none, false, none⟩
        (.failure none) false).2.head? =
        some (ServiceCall.getJupiterTransactionsPayload "addr" ⟨1, 2⟩
          (orWrappedSol "t")))) :=
  ⟨rfl, rfl, rfl, rfl,
    exchange_route_selection ⟨"0x65", .Solana, "SOL"⟩ ⟨"addr", .Solana⟩
      (SwapParams.mk (some ⟨"f", "F"⟩) (some ⟨"t", "T"⟩) "1" "" "0.5")
      ⟨"t", "T"⟩ ⟨some ⟨[⟨1, 2⟩]⟩, none, false, none⟩ ⟨[⟨1, 2⟩]⟩ ⟨1, 2⟩ []
      (.failure none) false rfl rfl rfl rfl⟩
